import Mathlib

/-!
Verification development for the SoftLayer ansible modules
(`sl_sshkey.py`, `sl_vs_server.py`).

The Python sources are shallowly embedded below: pure helpers become Lean
functions, the provider (SoftLayer SDK manager) becomes an explicit record of
response functions, and each reconciliation flow becomes a pure function from
parameters and provider to an outcome paired with the ordered list of provider
calls it issued.  Unhandled Python exceptions are modelled by an explicit
`PyError` outcome.
-/

set_option maxRecDepth 4000

/-- Unhandled Python exception kinds that the embedded code can raise. -/
inductive PyError where
  | indexError
  | attributeError
  | binasciiError
  | unicodeEncodeError
  deriving DecidableEq, Repr

deriving instance DecidableEq for Except

/-! ## Python string helpers: `str.strip()` and `str.split()` -/

/-- Python `str` whitespace (ASCII subset used by `strip`/`split`). -/
def pyIsSpace (c : Char) : Bool :=
  c = ' ' || c = '\t' || c = '\n' || c = '\x0d' || c = '\x0b' || c = '\x0c'

/-- Python `s.strip()`: remove leading and trailing whitespace. -/
def pyStrip (s : String) : String :=
  String.mk (((s.toList.dropWhile pyIsSpace).reverse.dropWhile pyIsSpace).reverse)

/-- Worker for `pySplitWs`: `cur` holds the (reversed) current field. -/
def pySplitAux : List Char → List Char → List String
  | [], [] => []
  | [], cur => [String.mk cur.reverse]
  | c :: rest, cur =>
    if pyIsSpace c then
      match cur with
      | [] => pySplitAux rest []
      | _ => String.mk cur.reverse :: pySplitAux rest []
    else pySplitAux rest (c :: cur)

/-- Python `s.split()` with no argument: split on whitespace runs,
dropping empty fields. -/
def pySplitWs (s : String) : List String := pySplitAux s.toList []

/-! ## Python `base64.b64decode` (lenient mode, as called by the source)

CPython's `binascii.a2b_base64` in non-strict mode skips characters outside
the base64 alphabet, treats `=` as padding that closes a quad once at least
two data characters are pending, and raises `binascii.Error` when the data
ends with a partial quad. -/

/-- Value of a base64 alphabet character, `none` for non-alphabet input. -/
def b64Val (c : Char) : Option Nat :=
  if 'A' ≤ c ∧ c ≤ 'Z' then some (c.toNat - 65)
  else if 'a' ≤ c ∧ c ≤ 'z' then some (c.toNat - 71)
  else if '0' ≤ c ∧ c ≤ '9' then some (c.toNat + 4)
  else if c = '+' then some 62
  else if c = '/' then some 63
  else none

/-- Main decode loop.  `quadPos` counts data characters in the current quad,
`buf` holds their bits, `pads` counts consecutive padding characters, and
`acc` holds the output bytes in reverse. -/
def b64Loop : List Char → Nat → Nat → Nat → List Nat → Except PyError (List Nat)
  | [], 0, _, _, acc => .ok acc.reverse
  | [], _ + 1, _, _, _ => .error .binasciiError
  | c :: rest, quadPos, buf, pads, acc =>
    if c = '=' then
      if 2 ≤ quadPos ∧ 4 ≤ quadPos + (pads + 1) then
        if quadPos = 2 then .ok (acc.reverse ++ [buf / 16])
        else .ok (acc.reverse ++ [buf / 1024, buf / 4 % 256])
      else b64Loop rest quadPos buf (pads + 1) acc
    else
      match b64Val c with
      | none => b64Loop rest quadPos buf pads acc
      | some v =>
        if quadPos = 3 then
          let t := buf * 64 + v
          b64Loop rest 0 0 0 (t % 256 :: t / 256 % 256 :: t / 65536 :: acc)
        else b64Loop rest (quadPos + 1) (buf * 64 + v) 0 acc

/-- Python `base64.b64decode` on an ASCII character list, returning bytes. -/
def pyB64Decode (cs : List Char) : Except PyError (List Nat) :=
  b64Loop cs 0 0 0 []

/-! ## MD5 (`hashlib.md5(...).hexdigest()`) over byte lists -/

/-- Truncation to a 32-bit word. -/
def w32 (n : Nat) : Nat := n % 4294967296

/-- 32-bit left rotation (input assumed `< 2^32`). -/
def rotl32 (x s : Nat) : Nat := w32 (x <<< s) ||| (x >>> (32 - s))

/-- The 64 MD5 sine-derived constants. -/
def md5K : List Nat :=
  [0xd76aa478, 0xe8c7b756, 0x242070db, 0xc1bdceee,
   0xf57c0faf, 0x4787c62a, 0xa8304613, 0xfd469501,
   0x698098d8, 0x8b44f7af, 0xffff5bb1, 0x895cd7be,
   0x6b901122, 0xfd987193, 0xa679438e, 0x49b40821,
   0xf61e2562, 0xc040b340, 0x265e5a51, 0xe9b6c7aa,
   0xd62f105d, 0x02441453, 0xd8a1e681, 0xe7d3fbc8,
   0x21e1cde6, 0xc33707d6, 0xf4d50d87, 0x455a14ed,
   0xa9e3e905, 0xfcefa3f8, 0x676f02d9, 0x8d2a4c8a,
   0xfffa3942, 0x8771f681, 0x6d9d6122, 0xfde5380c,
   0xa4beea44, 0x4bdecfa9, 0xf6bb4b60, 0xbebfbc70,
   0x289b7ec6, 0xeaa127fa, 0xd4ef3085, 0x04881d05,
   0xd9d4d039, 0xe6db99e5, 0x1fa27cf8, 0xc4ac5665,
   0xf4292244, 0x432aff97, 0xab9423a7, 0xfc93a039,
   0x655b59c3, 0x8f0ccc92, 0xffeff47d, 0x85845dd1,
   0x6fa87e4f, 0xfe2ce6e0, 0xa3014314, 0x4e0811a1,
   0xf7537e82, 0xbd3af235, 0x2ad7d2bb, 0xeb86d391]

/-- The 64 MD5 per-round shift amounts. -/
def md5S : List Nat :=
  [7, 12, 17, 22, 7, 12, 17, 22, 7, 12, 17, 22, 7, 12, 17, 22,
   5, 9, 14, 20, 5, 9, 14, 20, 5, 9, 14, 20, 5, 9, 14, 20,
   4, 11, 16, 23, 4, 11, 16, 23, 4, 11, 16, 23, 4, 11, 16, 23,
   6, 10, 15, 21, 6, 10, 15, 21, 6, 10, 15, 21, 6, 10, 15, 21]

/-- One MD5 round applied to the running state `(a, b, c, d)`. -/
def md5Step (m : List Nat) (st : Nat × Nat × Nat × Nat) (i : Nat) :
    Nat × Nat × Nat × Nat :=
  let a := st.1
  let b := st.2.1
  let c := st.2.2.1
  let d := st.2.2.2
  let f :=
    if i < 16 then (b &&& c) ||| ((b ^^^ 4294967295) &&& d)
    else if i < 32 then (d &&& b) ||| ((d ^^^ 4294967295) &&& c)
    else if i < 48 then b ^^^ c ^^^ d
    else c ^^^ (b ||| (d ^^^ 4294967295))
  let g :=
    if i < 16 then i
    else if i < 32 then (5 * i + 1) % 16
    else if i < 48 then (3 * i + 5) % 16
    else 7 * i % 16
  let tmp := w32 (a + f + md5K.getD i 0 + m.getD g 0)
  (d, w32 (b + rotl32 tmp (md5S.getD i 0)), b, c)

/-- Little-endian byte rendering of `n` on `k` bytes. -/
def leBytes : Nat → Nat → List Nat
  | 0, _ => []
  | k + 1, n => n % 256 :: leBytes k (n / 256)

/-- Split a 64-byte block into 16 little-endian 32-bit words. -/
def toWordsAux : Nat → List Nat → List Nat
  | 0, _ => []
  | k + 1, l =>
    (l.getD 0 0 + 256 * l.getD 1 0 + 65536 * l.getD 2 0 + 16777216 * l.getD 3 0)
      :: toWordsAux k (l.drop 4)

/-- The 16 message words of one 64-byte block. -/
def toWords (l : List Nat) : List Nat := toWordsAux 16 l

/-- Process one 64-byte block. -/
def md5Block (st : Nat × Nat × Nat × Nat) (block : List Nat) :
    Nat × Nat × Nat × Nat :=
  let m := toWords block
  let r := (List.range 64).foldl (md5Step m) st
  (w32 (st.1 + r.1), w32 (st.2.1 + r.2.1), w32 (st.2.2.1 + r.2.2.1),
   w32 (st.2.2.2 + r.2.2.2))

/-- MD5 padding: `0x80`, zeros to 56 mod 64, then the 64-bit bit length. -/
def md5Pad (msg : List Nat) : List Nat :=
  msg ++ 128 :: List.replicate ((119 - msg.length % 64) % 64) 0
      ++ leBytes 8 (msg.length * 8)

/-- Split a byte list into 64-byte chunks (fuelled). -/
def chunksAux : Nat → List Nat → List (List Nat)
  | 0, _ => []
  | _ + 1, [] => []
  | k + 1, l => l.take 64 :: chunksAux k (l.drop 64)

/-- All 64-byte chunks of a padded message. -/
def chunks64 (l : List Nat) : List (List Nat) := chunksAux (l.length / 64 + 1) l

/-- The 16 MD5 digest bytes of a byte-list message. -/
def md5Bytes (msg : List Nat) : List Nat :=
  let init : Nat × Nat × Nat × Nat :=
    (0x67452301, 0xefcdab89, 0x98badcfe, 0x10325476)
  let st := (chunks64 (md5Pad msg)).foldl md5Block init
  leBytes 4 st.1 ++ leBytes 4 st.2.1 ++ leBytes 4 st.2.2.1 ++ leBytes 4 st.2.2.2

/-- Lowercase hex digit. -/
def hexChar (n : Nat) : Char :=
  if n < 10 then Char.ofNat (48 + n) else Char.ofNat (87 + n)

/-- Two lowercase hex characters of one byte. -/
def byteHex (b : Nat) : List Char := [hexChar (b / 16), hexChar (b % 16)]

/-- Python `hashlib.md5(msg).hexdigest()`: 32 lowercase hex characters. -/
def md5Hexdigest (msg : List Nat) : String :=
  String.mk ((md5Bytes msg).foldr (fun b acc => byteHex b ++ acc) [])

/-! ## `sl_sshkey._get_fingerprint`

Source:
```
key = base64.b64decode(public_key.strip().split()[1].encode('ascii'))
fp_plain = hashlib.md5(key).hexdigest()
return ':'.join(a+b for a,b in zip(fp_plain[::2], fp_plain[1::2]))
```
`public_key` may be `None` (the module parameter defaults to `None`), in which
case `.strip()` raises `AttributeError`; a missing second field raises
`IndexError`; a non-ASCII field makes `.encode('ascii')` raise; bad padding
makes `b64decode` raise `binascii.Error`. -/

/-- Python `':'.join(xs)`. -/
def joinColon : List String → String
  | [] => ""
  | [x] => x
  | x :: xs => x ++ ":" ++ joinColon xs

/-- `l[::2]` on a character list. -/
def evens : List Char → List Char
  | [] => []
  | [a] => [a]
  | a :: _ :: rest => a :: evens rest

/-- `l[1::2]` on a character list. -/
def odds : List Char → List Char
  | [] => []
  | [_] => []
  | _ :: b :: rest => b :: odds rest

/-- `':'.join(a+b for a,b in zip(s[::2], s[1::2]))`. -/
def srcColon (s : String) : String :=
  joinColon (((evens s.toList).zip (odds s.toList)).map
    (fun p => String.mk [p.1, p.2]))

/-- `sl_sshkey._get_fingerprint`, with unhandled Python exceptions made
explicit.  `none` models a `public_key` parameter left at its `None`
default. -/
def slGetFingerprint (publicKey : Option String) : Except PyError String :=
  match publicKey with
  | none => .error .attributeError
  | some s =>
    match (pySplitWs (pyStrip s)).get? 1 with
    | none => .error .indexError
    | some field =>
      if field.toList.any (fun c => 128 ≤ c.toNat) then
        .error .unicodeEncodeError
      else
        match pyB64Decode field.toList with
        | .error e => .error e
        | .ok bytes => .ok (srcColon (md5Hexdigest bytes))

/-! ## Key reconciler (`sl_sshkey.py`) -/

/-- A provider-side SSH key record (the fields the module reads). -/
structure SLKey where
  id : Nat
  label : String
  fingerprint : String
  deriving DecidableEq, Repr

/-- One remote call of the key manager, in issue order. -/
inductive KeyCall where
  | listKeysAll
  | listKeysByLabel (label : String)
  | addKey (publicKey label : String)
  | deleteKey (id : Nat)
  deriving DecidableEq, Repr

/-- Terminal outcome of a key-module run: `exit_json` carrying a key,
`exit_json` carrying only `changed`, `fail_json`, or an unhandled
exception. -/
inductive KeyOutcome where
  | exitKey (changed : Bool) (key : SLKey) (msg : Option String)
  | exitChanged (changed : Bool)
  | failJson (msg : String)
  | crash (e : PyError)
  deriving DecidableEq, Repr

/-- The provider as seen by the key module: the account's key list and the
response of `add_key` (`none` models a falsy SDK return). -/
structure KeyProvider where
  keys : List SLKey
  addKey : String → String → Option SLKey

/-- Message for a fingerprint match under a different label. -/
def fpExistsMsg (l : String) : String :=
  "A key with this fingerprint already exists on this account, using key " ++ l

/-- Message for a label bound to a different key. -/
def labelConflictMsg (l : String) : String :=
  "A key with label " ++ l ++
    " already exists with a different public key on this account"

/-- Message for a missing public key. -/
def missingKeyMsg : String := "A key must be given. No sshkey created."

/-- Message for a falsy `add_key` return. -/
def createFailedMsg : String := "The key was not succesfully created"

/-- Message for an ambiguous delete. -/
def ambiguousMsg (l : String) : String :=
  "More than one sshkey named " ++ l ++ ". No keys deleted"

/-- The `for k in keys` loop of `_create_key`: first terminal outcome, if
any.  Each key is tested fingerprint-first, then label. -/
def createKeyScan (finger label : String) : List SLKey → Option KeyOutcome
  | [] => none
  | k :: rest =>
    if k.fingerprint = finger then
      if k.label = label then some (.exitKey false k none)
      else some (.exitKey false k (some (fpExistsMsg k.label)))
    else if k.label = label then some (.failJson (labelConflictMsg label))
    else createKeyScan finger label rest

/-- Python truthiness test `not public_key` for an optional string. -/
def pyFalsyStr : Option String → Bool
  | none => true
  | some s => s = ""

/-- `sl_sshkey._create_key`: outcome and the provider calls issued. -/
def createKey (publicKey : Option String) (label : String)
    (prov : KeyProvider) : KeyOutcome × List KeyCall :=
  match slGetFingerprint publicKey with
  | .error e => (.crash e, [])
  | .ok finger =>
    match createKeyScan finger label prov.keys with
    | some out => (out, [.listKeysAll])
    | none =>
      if pyFalsyStr publicKey then (.failJson missingKeyMsg, [.listKeysAll])
      else
        let pk := publicKey.getD ""
        match prov.addKey pk label with
        | some k => (.exitKey true k none, [.listKeysAll, .addKey pk label])
        | none => (.failJson createFailedMsg, [.listKeysAll, .addKey pk label])

/-- `sl_sshkey._delete_key`: outcome and the provider calls issued.
`list_keys(label=l)` is the SDK's label filter over the account keys. -/
def deleteKey (label : String) (prov : KeyProvider) :
    KeyOutcome × List KeyCall :=
  let keys := prov.keys.filter (fun k => k.label = label)
  if 1 < keys.length then
    (.failJson (ambiguousMsg label), [.listKeysByLabel label])
  else
    match keys with
    | k :: _ => (.exitChanged true, [.listKeysByLabel label, .deleteKey k.id])
    | [] => (.exitChanged false, [.listKeysByLabel label])

/-! ## Server reconciler (`sl_vs_server.py`) -/

/-- A provider-side virtual-server record: its id plus the rest of the
record as an association list. -/
structure SLInstance where
  id : Nat
  data : List (String × String)
  deriving DecidableEq, Repr

/-- The module parameters of `sl_vs_server` (after Ansible type coercion).
Optional parameters left at their `None` defaults are `none`. -/
structure ServerParams where
  hostname : String
  domain : String
  cpus : Int
  memory : Int
  hourly : Bool
  local_disk : Bool
  datacenter : Option String
  os_code : Option String
  image_id : Option Int
  dedicated : Bool
  public_vlan : Option Int
  private_vlan : Option Int
  disks : Option (List Int)
  post_uri : Option String
  «private» : Option Bool
  ssh_keys : Option (List Nat)
  nic_speed : Option Int
  tags : Option String
  wait_for_ready : Bool
  deriving DecidableEq, Repr

/-- Python truthiness of an optional string (`None` and `''` are falsy). -/
def truthyOS : Option String → Bool
  | none => false
  | some s => ¬ s = ""

/-- Python truthiness of an optional int (`None` and `0` are falsy). -/
def truthyOI : Option Int → Bool
  | none => false
  | some n => ¬ n = 0

/-- Python truthiness of an optional list (`None` and `[]` are falsy). -/
def truthyOLI : Option (List Int) → Bool
  | none => false
  | some l => ¬ l = []

/-- Python truthiness of an optional nat list. -/
def truthyOLN : Option (List Nat) → Bool
  | none => false
  | some l => ¬ l = []

/-- Python truthiness of an optional bool (`None` and `False` are falsy). -/
def truthyOB : Option Bool → Bool
  | none => false
  | some b => b

/-- Keep an optional value only when truthy (the `if module.params[p]:`
guard that adds optional specs). -/
def normOS (o : Option String) : Option String := if truthyOS o then o else none

/-- Keep an optional int only when truthy. -/
def normOI (o : Option Int) : Option Int := if truthyOI o then o else none

/-- Keep an optional int list only when truthy. -/
def normOLI (o : Option (List Int)) : Option (List Int) :=
  if truthyOLI o then o else none

/-- Keep an optional nat list only when truthy. -/
def normOLN (o : Option (List Nat)) : Option (List Nat) :=
  if truthyOLN o then o else none

/-- Keep an optional bool only when truthy. -/
def normOB (o : Option Bool) : Option Bool := if truthyOB o then o else none

/-- The `instance_specs` dictionary passed to `create_instance`. -/
structure InstanceSpecs where
  domain : String
  hostname : String
  memory : Int
  cpus : Int
  datacenter : Option String
  hourly : Bool
  image_id : Option Int
  os_code : Option String
  local_disk : Bool
  dedicated : Bool
  public_vlan : Option Int
  private_vlan : Option Int
  disks : Option (List Int)
  post_uri : Option String
  «private» : Option Bool
  ssh_keys : Option (List Nat)
  nic_speed : Option Int
  tags : Option String
  deriving DecidableEq, Repr

/-- One remote call of the VS manager, in issue order. -/
inductive VsCall where
  | listInstances (hostname domain : String) (datacenter : Option String)
  | createInstance (specs : InstanceSpecs)
  | getInstance (id : Nat)
  | waitForReady (id : Nat) (timeout : Nat)
  | waitForTransaction (id : Nat) (timeout : Nat)
  | cancelInstance (id : Nat)
  deriving DecidableEq, Repr

/-- Terminal outcome of a VS-module run. -/
inductive VsOutcome where
  | exitServer (changed : Bool) (server : SLInstance)
  | exitChanged (changed : Bool) (msg : Option String)
  | failJson (msg : String)
  | crash (e : PyError)
  deriving DecidableEq, Repr

/-- The provider as seen by the VS module.  `listInstances` answers the
queries made before any create; `listAfterCreate` answers the re-query that
follows `create_instance` (the account state has changed by then);
`getInstance` returns the full record for an id; `waitForReady` is the SDK
readiness wait. -/
structure VsProvider where
  listInstances : String → String → Option String → List SLInstance
  listAfterCreate : String → String → List SLInstance
  getInstance : Nat → SLInstance
  waitForReady : Nat → Nat → Bool

/-- The `for key in instance_specs` required-field check of
`_create_server`, in the dictionary's insertion order, returning the first
falsy field's name.  (`hourly=False`, `memory=0` and `cpus=0` are falsy in
Python and hence also rejected.) -/
def firstMissingField (p : ServerParams) : Option String :=
  if p.domain = "" then some "domain"
  else if p.hostname = "" then some "hostname"
  else if p.memory = 0 then some "memory"
  else if p.cpus = 0 then some "cpus"
  else if ¬ truthyOS p.datacenter then some "datacenter"
  else if ¬ p.hourly then some "hourly"
  else none

/-- The specs dictionary as fully assembled by `_create_server`, with
`img`/`os` the value chosen by the image-vs-os `elif` chain. -/
def buildSpecs (p : ServerParams) (img : Option Int) (os : Option String) :
    InstanceSpecs :=
  { domain := p.domain
    hostname := p.hostname
    memory := p.memory
    cpus := p.cpus
    datacenter := p.datacenter
    hourly := p.hourly
    image_id := img
    os_code := os
    local_disk := p.local_disk
    dedicated := p.dedicated
    public_vlan := normOI p.public_vlan
    private_vlan := normOI p.private_vlan
    disks := normOLI p.disks
    post_uri := normOS p.post_uri
    «private» := normOB p.«private»
    ssh_keys := normOLN p.ssh_keys
    nic_speed := normOI p.nic_speed
    tags := normOS p.tags }

/-- Tail of `_create_server` after the image/os choice: submit the create,
re-query `(hostname, domain)`, take element `[0]` (an `IndexError` when the
re-query is empty), then wait or re-fetch. -/
def createServerRest (p : ServerParams) (prov : VsProvider)
    (img : Option Int) (os : Option String) : VsOutcome × List VsCall :=
  let specs := buildSpecs p img os
  let base := [VsCall.createInstance specs,
               VsCall.listInstances p.hostname p.domain none]
  match prov.listAfterCreate p.hostname p.domain with
  | [] => (.crash .indexError, base)
  | inst :: _ =>
    if p.wait_for_ready then
      if prov.waitForReady inst.id 900 then
        (.exitServer true inst, base ++ [.waitForReady inst.id 900])
      else
        (.failJson "Timeout while waiting for server. It may not be ready.",
         base ++ [.waitForReady inst.id 900])
    else
      (.exitServer true (prov.getInstance inst.id),
       base ++ [.getInstance inst.id])

/-- `sl_vs_server._create_server`: outcome and the provider calls issued. -/
def createServer (p : ServerParams) (prov : VsProvider) :
    VsOutcome × List VsCall :=
  match firstMissingField p with
  | some f => (.failJson (f ++ " must be specified to order instance"), [])
  | none =>
    if truthyOI p.image_id ∧ truthyOS p.os_code then
      (.failJson "image_id and os_code cannot both be specified", [])
    else if truthyOI p.image_id then createServerRest p prov p.image_id none
    else if truthyOS p.os_code then createServerRest p prov none p.os_code
    else (.failJson "You must specify either the OS code or image id", [])

/-- The `state == 'present'` branch of `sl_vs_server.main`: list by
`(hostname, domain)`; if non-empty, fetch the first instance's full record
and exit unchanged, otherwise create. -/
def mainPresent (p : ServerParams) (prov : VsProvider) :
    VsOutcome × List VsCall :=
  let call0 := VsCall.listInstances p.hostname p.domain none
  match prov.listInstances p.hostname p.domain none with
  | i :: _ => (.exitServer false (prov.getInstance i.id),
               [call0, .getInstance i.id])
  | [] =>
    let r := createServer p prov
    (r.1, call0 :: r.2)

/-- `sl_vs_server._find_servers`: list by hostname/domain, narrowed by
`datacenter` when that parameter is truthy. -/
def findServers (p : ServerParams) (prov : VsProvider) :
    List SLInstance × VsCall :=
  let dc := normOS p.datacenter
  (prov.listInstances p.hostname p.domain dc,
   .listInstances p.hostname p.domain dc)

/-- `sl_vs_server._delete_server`: cancel every match after a bounded
transaction wait. -/
def deleteServer (p : ServerParams) (prov : VsProvider) :
    VsOutcome × List VsCall :=
  let r := findServers p prov
  match r.1 with
  | [] => (.exitChanged false
             (some "no servers were found with this specification"), [r.2])
  | _ :: _ =>
    (.exitChanged true none,
     r.2 :: r.1.flatMap (fun s => [.waitForTransaction s.id 900,
                                   .cancelInstance s.id]))


/-! ## Claims about the key reconciler -/

/-- Keys that match neither the fingerprint nor the label are skipped by the
`_create_key` loop. -/
theorem createKeyScan_append (finger label : String) (pre rest : List SLKey)
    (hpre : ∀ j ∈ pre, j.fingerprint ≠ finger ∧ j.label ≠ label) :
    createKeyScan finger label (pre ++ rest) = createKeyScan finger label rest := by
  induction pre with
  | nil => rfl
  | cons j pre ih =>
    obtain ⟨h1, h2⟩ := hpre j (List.mem_cons_self j pre)
    simp only [List.cons_append, createKeyScan, if_neg h1, if_neg h2]
    exact ih fun i hi => hpre i (List.mem_cons_of_mem j hi)

/-- MD5 fingerprint of the key material `"AAAA"` (three zero bytes). -/
def fpAAAA : String := "69:3e:9a:f8:4d:3d:fc:c7:1e:64:0e:00:5b:dc:5e:2e"

/-- Account with a label-colliding key listed before a fingerprint-matching
key. -/
def provC1 : KeyProvider :=
  ⟨[⟨1, "k1", "OTHER"⟩, ⟨2, "k2", fpAAAA⟩], fun _ _ => none⟩

/-- C1, counterexample: the account holds a key whose fingerprint equals the
requested key's fingerprint, yet because a key carrying the requested label
is listed first, `_create_key` terminates with the label-conflict failure
instead of returning the matching key. -/
theorem C1_counterexample :
    createKey (some "ssh-rsa AAAA") "k1" provC1 =
      (.failJson (labelConflictMsg "k1"), [.listKeysAll]) ∧
    slGetFingerprint (some "ssh-rsa AAAA") = .ok fpAAAA ∧
    (⟨2, "k2", fpAAAA⟩ : SLKey) ∈ provC1.keys ∧
    (⟨2, "k2", fpAAAA⟩ : SLKey).fingerprint = fpAAAA := by
  refine ⟨by decide, by decide, ?_, rfl⟩
  simp [provC1]

/-- C1, amended: a fingerprint match wins only when it occurs no later than
the first key carrying the requested label in the provider's listing order.
If every key listed before the match carries neither the fingerprint nor the
label, the flow exits unchanged with the matching key (advisory message when
its label differs); if a key with the requested label and a different
fingerprint is listed before any fingerprint match, the flow fails with the
label-conflict message. -/
theorem C1_scan_order_decides :
    (∀ (publicKey : Option String) (label finger : String)
        (prov : KeyProvider) (pre post : List SLKey) (k : SLKey),
      slGetFingerprint publicKey = .ok finger →
      prov.keys = pre ++ k :: post →
      k.fingerprint = finger →
      (∀ j ∈ pre, j.fingerprint ≠ finger ∧ j.label ≠ label) →
      createKey publicKey label prov =
        (if k.label = label then KeyOutcome.exitKey false k none
         else KeyOutcome.exitKey false k (some (fpExistsMsg k.label)),
         [.listKeysAll])) ∧
    (∀ (publicKey : Option String) (label finger : String)
        (prov : KeyProvider) (pre post : List SLKey) (j : SLKey),
      slGetFingerprint publicKey = .ok finger →
      prov.keys = pre ++ j :: post →
      j.fingerprint ≠ finger →
      j.label = label →
      (∀ i ∈ pre, i.fingerprint ≠ finger ∧ i.label ≠ label) →
      createKey publicKey label prov =
        (.failJson (labelConflictMsg label), [.listKeysAll])) := by
  constructor
  · intro publicKey label finger prov pre post k hfp hkeys hkfp hpre
    simp only [createKey, hfp, hkeys, createKeyScan_append finger label pre _ hpre,
      createKeyScan, if_pos hkfp]
    by_cases h : k.label = label <;> simp [h]
  · intro publicKey label finger prov pre post j hfp hkeys hjfp hjl hpre
    simp only [createKey, hfp, hkeys, createKeyScan_append finger label pre _ hpre,
      createKeyScan, if_neg hjfp, if_pos hjl]

/-- Account with the fingerprint-matching key listed first. -/
def provC1b : KeyProvider :=
  ⟨[⟨2, "k2", fpAAAA⟩, ⟨1, "k1", "OTHER"⟩], fun _ _ => none⟩

/-- Witness for C1's amended theorem at concrete inputs: with the matching
key listed first the flow exits unchanged with the advisory message, and
with the label collision listed first it fails. -/
theorem C1_scan_order_decides_witness :
    createKey (some "ssh-rsa AAAA") "k1" provC1b =
      (.exitKey false ⟨2, "k2", fpAAAA⟩ (some (fpExistsMsg "k2")), [.listKeysAll]) ∧
    createKey (some "ssh-rsa AAAA") "k1" provC1 =
      (.failJson (labelConflictMsg "k1"), [.listKeysAll]) := by
  constructor
  · have h := C1_scan_order_decides.1 (some "ssh-rsa AAAA") "k1" fpAAAA provC1b
      [] [⟨1, "k1", "OTHER"⟩] ⟨2, "k2", fpAAAA⟩ (by decide) rfl rfl
      (by intro j hj; simp at hj)
    simpa using h
  · exact C1_scan_order_decides.2 (some "ssh-rsa AAAA") "k1" fpAAAA provC1
      [] [⟨2, "k2", fpAAAA⟩] ⟨1, "k1", "OTHER"⟩ (by decide) rfl (by decide) rfl
      (by intro i hi; simp at hi)

/-- C3: the missing-key validation of `_create_key` is dead code.  For every
falsy `public_key` (`None` or the empty string — exactly the inputs the
`if not public_key` guard would catch) the flow raises an unhandled
exception inside `_get_fingerprint`, before any provider call, so the
"A key must be given" failure is never reported.  (The claim's structured
`MissingKeyError` with no prior provider call is the evident intent of the
guard, but fingerprinting runs first and crashes.) -/
theorem C3_missing_key_guard_dead :
    (∀ (label : String) (prov : KeyProvider),
      createKey none label prov = (.crash .attributeError, [])) ∧
    (∀ (label : String) (prov : KeyProvider),
      createKey (some "") label prov = (.crash .indexError, [])) ∧
    (∀ pk : Option String, pyFalsyStr pk = true ↔ pk = none ∨ pk = some "") := by
  refine ⟨fun label prov => rfl, fun label prov => rfl, fun pk => ?_⟩
  cases pk with
  | none => simp [pyFalsyStr]
  | some s => simp [pyFalsyStr]

/-- C7: `_delete_key` deletes only on an unambiguous label match.  Zero
matching keys exit unchanged with no delete call; exactly one match issues
one delete on that key's id and exits changed; two or more matches fail with
the ambiguity message and issue no delete call. -/
theorem C7_delete_key_guard (label : String) (prov : KeyProvider) :
    (prov.keys.filter (fun k => k.label = label) = [] →
      deleteKey label prov = (.exitChanged false, [.listKeysByLabel label])) ∧
    (∀ k, prov.keys.filter (fun k => k.label = label) = [k] →
      deleteKey label prov =
        (.exitChanged true, [.listKeysByLabel label, .deleteKey k.id])) ∧
    (2 ≤ (prov.keys.filter (fun k => k.label = label)).length →
      deleteKey label prov = (.failJson (ambiguousMsg label), [.listKeysByLabel label])) := by
  refine ⟨fun h => ?_, fun k h => ?_, fun h => ?_⟩
  · simp only [deleteKey, h]
    rfl
  · simp only [deleteKey, h]
    rfl
  · simp only [deleteKey]
    rw [if_pos (lt_of_lt_of_le Nat.one_lt_two h)]

/-- Account with one key labelled `a` and two keys labelled `b`. -/
def provC7 : KeyProvider :=
  ⟨[⟨1, "a", "f1"⟩, ⟨2, "b", "f2"⟩, ⟨3, "b", "f3"⟩], fun _ _ => none⟩

/-- Witness for C7 at concrete inputs: an unmatched label, a unique label
and an ambiguous label. -/
theorem C7_delete_key_guard_witness :
    deleteKey "z" provC7 = (.exitChanged false, [.listKeysByLabel "z"]) ∧
    deleteKey "a" provC7 =
      (.exitChanged true, [.listKeysByLabel "a", .deleteKey 1]) ∧
    deleteKey "b" provC7 = (.failJson (ambiguousMsg "b"), [.listKeysByLabel "b"]) :=
  ⟨(C7_delete_key_guard "z" provC7).1 (by decide),
   (C7_delete_key_guard "a" provC7).2.1 ⟨1, "a", "f1"⟩ (by decide),
   (C7_delete_key_guard "b" provC7).2.2 (by decide)⟩

/-! ## Claims about the server reconciler -/

/-- A fully-specified present-state request. -/
def baseParams : ServerParams :=
  { hostname := "vm1", domain := "d.com", cpus := 8, memory := 16,
    hourly := true, local_disk := true, datacenter := some "dal05",
    os_code := some "UBUNTU_LATEST", image_id := none, dedicated := false,
    public_vlan := none, private_vlan := none, disks := none,
    post_uri := none, «private» := none, ssh_keys := none,
    nic_speed := none, tags := none, wait_for_ready := true }

/-- A provider with no instances at all. -/
def provEmpty : VsProvider :=
  { listInstances := fun _ _ _ => [], listAfterCreate := fun _ _ => [],
    getInstance := fun n => ⟨n, []⟩, waitForReady := fun _ _ => true }

/-- A provider already holding a matching instance with id 7; `getInstance`
returns a fuller record than the listing. -/
def provExisting : VsProvider :=
  { listInstances := fun _ _ _ => [⟨7, [("partial", "listing")]⟩],
    listAfterCreate := fun _ _ => [],
    getInstance := fun n => ⟨n, [("full", "rec")]⟩,
    waitForReady := fun _ _ => true }

/-- C2: when the `(hostname, domain)` listing is non-empty, the present flow
returns `changed=false` with the full fetched record of the first listed
instance, makes exactly the list call and one `get_instance` call (never a
create), and its result is independent of every other request field — hence
a second identical run against a provider that now lists the server also
returns `changed=false`. -/
theorem C2_present_short_circuit (p q : ServerParams) (prov : VsProvider)
    (i : SLInstance) (rest : List SLInstance)
    (hlist : prov.listInstances p.hostname p.domain none = i :: rest)
    (hqh : q.hostname = p.hostname) (hqd : q.domain = p.domain) :
    mainPresent p prov =
      (.exitServer false (prov.getInstance i.id),
       [.listInstances p.hostname p.domain none, .getInstance i.id]) ∧
    (∀ specs, VsCall.createInstance specs ∉ (mainPresent p prov).2) ∧
    mainPresent q prov = mainPresent p prov := by
  have hp : mainPresent p prov =
      (.exitServer false (prov.getInstance i.id),
       [.listInstances p.hostname p.domain none, .getInstance i.id]) := by
    simp only [mainPresent, hlist]
  have hq : mainPresent q prov =
      (.exitServer false (prov.getInstance i.id),
       [.listInstances p.hostname p.domain none, .getInstance i.id]) := by
    simp only [mainPresent, hqh, hqd, hlist]
  refine ⟨hp, ?_, hq.trans hp.symm⟩
  intro specs hmem
  rw [hp] at hmem
  simp at hmem

/-- A request agreeing with `baseParams` only on `(hostname, domain)`. -/
def qC2 : ServerParams :=
  { baseParams with
    cpus := 0
    memory := 0
    os_code := none
    image_id := some 5
    datacenter := none
    wait_for_ready := false }

/-- Witness for C2 at concrete inputs: the existing instance short-circuits
the flow, and a request differing in every other field gets the same
result. -/
theorem C2_present_short_circuit_witness :
    mainPresent baseParams provExisting =
      (.exitServer false ⟨7, [("full", "rec")]⟩,
       [.listInstances "vm1" "d.com" none, .getInstance 7]) ∧
    mainPresent qC2 provExisting = mainPresent baseParams provExisting := by
  have h := C2_present_short_circuit baseParams qC2 provExisting
    ⟨7, [("partial", "listing")]⟩ [] rfl rfl rfl
  exact ⟨h.1, h.2.2⟩

/-- The base request with `wait_for_ready=False`. -/
def p4 : ServerParams := { baseParams with wait_for_ready := false }

/-- A provider whose post-create listing shows a partial record for id 42
while `get_instance` returns a fuller record. -/
def prov4 : VsProvider :=
  { listInstances := fun _ _ _ => []
    listAfterCreate := fun _ _ => [⟨42, [("partial", "1")]⟩]
    getInstance := fun n => ⟨n, [("full", "1")]⟩
    waitForReady := fun _ _ => true }

/-- C4, counterexample: with `wait_for_ready=False` the create flow DOES
re-fetch the full record — it calls `get_instance` on the created id and
returns that record (different here from the partial listing entry), against
the claim that the full record is not re-fetched in this branch. -/
theorem C4_counterexample :
    mainPresent p4 prov4 =
      (.exitServer true ⟨42, [("full", "1")]⟩,
       [.listInstances "vm1" "d.com" none,
        .createInstance (buildSpecs p4 none (some "UBUNTU_LATEST")),
        .listInstances "vm1" "d.com" none,
        .getInstance 42]) ∧
    prov4.listAfterCreate "vm1" "d.com" = [⟨42, [("partial", "1")]⟩] ∧
    (⟨42, [("full", "1")]⟩ : SLInstance) ≠ ⟨42, [("partial", "1")]⟩ := by
  refine ⟨by decide, by decide, by decide⟩

/-- C4, amended: when `wait_for_ready` is false and the create path is
reached (validation passes, exactly one of image/os, no pre-existing match)
with a non-empty post-create re-query, the flow returns `changed=true` with
the FULL record fetched by `get_instance` on the first re-queried id. -/
theorem C4_refetch_on_no_wait (p : ServerParams) (prov : VsProvider)
    (i : SLInstance) (rest : List SLInstance)
    (hw : p.wait_for_ready = false)
    (hmiss : firstMissingField p = none)
    (hx : truthyOI p.image_id ≠ truthyOS p.os_code)
    (hempty : prov.listInstances p.hostname p.domain none = [])
    (hafter : prov.listAfterCreate p.hostname p.domain = i :: rest) :
    ∃ specs, mainPresent p prov =
      (.exitServer true (prov.getInstance i.id),
       [.listInstances p.hostname p.domain none, .createInstance specs,
        .listInstances p.hostname p.domain none, .getInstance i.id]) := by
  cases hI : truthyOI p.image_id <;> cases hO : truthyOS p.os_code <;>
    rw [hI, hO] at hx <;> try exact absurd rfl hx
  · refine ⟨buildSpecs p none p.os_code, ?_⟩
    simp only [mainPresent, hempty, createServer, hmiss, hI, hO,
      createServerRest, hafter, hw]
    simp
  · refine ⟨buildSpecs p p.image_id none, ?_⟩
    simp only [mainPresent, hempty, createServer, hmiss, hI, hO,
      createServerRest, hafter, hw]
    simp

/-- Witness for C4's amended theorem at concrete inputs. -/
theorem C4_refetch_on_no_wait_witness :
    ∃ specs, mainPresent p4 prov4 =
      (.exitServer true (prov4.getInstance 42),
       [.listInstances "vm1" "d.com" none, .createInstance specs,
        .listInstances "vm1" "d.com" none, .getInstance 42]) :=
  C4_refetch_on_no_wait p4 prov4 ⟨42, [("partial", "1")]⟩ [] rfl rfl
    (by decide) rfl rfl

/-- The base request with both `image_id` and `os_code` set. -/
def p5 : ServerParams := { baseParams with image_id := some 123 }

/-- C5, counterexample: a request with both `os_code` and `image_id` set
does terminate with the image/os conflict failure, but only after the
initial `(hostname, domain)` listing — the provider call trace is non-empty,
against the claim of zero provider calls. -/
theorem C5_counterexample :
    mainPresent p5 provEmpty =
      (.failJson "image_id and os_code cannot both be specified",
       [.listInstances "vm1" "d.com" none]) ∧
    (mainPresent p5 provEmpty).2 ≠ [] := by
  refine ⟨by decide, by decide⟩

/-- C5, amended: when no instance matches `(hostname, domain)` and the
required fields pass validation, a request with both (or neither) of
image/os terminates with the corresponding conflict failure after exactly
one provider call — the initial read-only listing — and no mutating call. -/
theorem C5_conflict_after_one_read (p : ServerParams) (prov : VsProvider)
    (hempty : prov.listInstances p.hostname p.domain none = [])
    (hmiss : firstMissingField p = none) :
    (truthyOI p.image_id = true → truthyOS p.os_code = true →
      mainPresent p prov =
        (.failJson "image_id and os_code cannot both be specified",
         [.listInstances p.hostname p.domain none])) ∧
    (truthyOI p.image_id = false → truthyOS p.os_code = false →
      mainPresent p prov =
        (.failJson "You must specify either the OS code or image id",
         [.listInstances p.hostname p.domain none])) := by
  constructor <;> intro h1 h2 <;>
    simp only [mainPresent, hempty, createServer, hmiss, h1, h2] <;> simp

/-- The base request with neither `image_id` nor `os_code`. -/
def pNeither : ServerParams := { baseParams with os_code := none }

/-- Witness for C5's amended theorem at concrete inputs: both set, and
neither set. -/
theorem C5_conflict_after_one_read_witness :
    mainPresent p5 provEmpty =
      (.failJson "image_id and os_code cannot both be specified",
       [.listInstances "vm1" "d.com" none]) ∧
    mainPresent pNeither provEmpty =
      (.failJson "You must specify either the OS code or image id",
       [.listInstances "vm1" "d.com" none]) :=
  ⟨(C5_conflict_after_one_read p5 provEmpty rfl rfl).1 rfl rfl,
   (C5_conflict_after_one_read pNeither provEmpty rfl rfl).2 rfl rfl⟩

/-- C10: when the create path is taken and the post-create re-query returns
an empty list, `_create_server` crashes with an unhandled `IndexError` on
the `[0]` index (no structured failure), right after the create and re-query
calls. -/
theorem C10_empty_requery_index_error (p : ServerParams) (prov : VsProvider)
    (hmiss : firstMissingField p = none)
    (hx : truthyOI p.image_id ≠ truthyOS p.os_code)
    (hempty : prov.listInstances p.hostname p.domain none = [])
    (hafter : prov.listAfterCreate p.hostname p.domain = []) :
    ∃ specs, mainPresent p prov =
      (.crash .indexError,
       [.listInstances p.hostname p.domain none, .createInstance specs,
        .listInstances p.hostname p.domain none]) := by
  cases hI : truthyOI p.image_id <;> cases hO : truthyOS p.os_code <;>
    rw [hI, hO] at hx <;> try exact absurd rfl hx
  · refine ⟨buildSpecs p none p.os_code, ?_⟩
    simp only [mainPresent, hempty, createServer, hmiss, hI, hO,
      createServerRest, hafter]
    simp
  · refine ⟨buildSpecs p p.image_id none, ?_⟩
    simp only [mainPresent, hempty, createServer, hmiss, hI, hO,
      createServerRest, hafter]
    simp

/-- Witness for C10 at concrete inputs: an empty provider never shows the
created instance, and the flow crashes with the index error. -/
theorem C10_empty_requery_index_error_witness :
    ∃ specs, mainPresent baseParams provEmpty =
      (.crash .indexError,
       [.listInstances "vm1" "d.com" none, .createInstance specs,
        .listInstances "vm1" "d.com" none]) :=
  C10_empty_requery_index_error baseParams provEmpty rfl (by decide) rfl rfl

/-- C8: the absent flow has no ambiguity guard.  Zero matches exit unchanged
with no cancellation; otherwise the result is `changed=true` and EVERY
listed match gets a bounded 900-second transaction wait and a cancel call on
its id; conversely every cancel call in the trace targets a listed match. -/
theorem C8_cancel_all_matches (p : ServerParams) (prov : VsProvider) :
    (prov.listInstances p.hostname p.domain (normOS p.datacenter) = [] →
      deleteServer p prov =
        (.exitChanged false (some "no servers were found with this specification"),
         [.listInstances p.hostname p.domain (normOS p.datacenter)])) ∧
    (∀ s ∈ prov.listInstances p.hostname p.domain (normOS p.datacenter),
      (deleteServer p prov).1 = .exitChanged true none ∧
      VsCall.waitForTransaction s.id 900 ∈ (deleteServer p prov).2 ∧
      VsCall.cancelInstance s.id ∈ (deleteServer p prov).2) ∧
    (∀ n, VsCall.cancelInstance n ∈ (deleteServer p prov).2 →
      ∃ s ∈ prov.listInstances p.hostname p.domain (normOS p.datacenter),
        s.id = n) := by
  refine ⟨fun h => by simp only [deleteServer, findServers, h], ?_, ?_⟩
  · intro s hs
    cases hL : prov.listInstances p.hostname p.domain (normOS p.datacenter) with
    | nil => rw [hL] at hs; simp at hs
    | cons a tl =>
      have hd : deleteServer p prov =
          (.exitChanged true none,
           .listInstances p.hostname p.domain (normOS p.datacenter) ::
             (a :: tl).flatMap
               (fun s => [.waitForTransaction s.id 900, .cancelInstance s.id])) := by
        simp only [deleteServer, findServers, hL]
      rw [hL] at hs
      rw [hd]
      refine ⟨rfl, ?_, ?_⟩
      · exact List.mem_cons_of_mem _ (List.mem_flatMap.mpr ⟨s, hs, by simp⟩)
      · exact List.mem_cons_of_mem _ (List.mem_flatMap.mpr ⟨s, hs, by simp⟩)
  · intro n hn
    cases hL : prov.listInstances p.hostname p.domain (normOS p.datacenter) with
    | nil =>
      have hd : deleteServer p prov =
          (.exitChanged false (some "no servers were found with this specification"),
           [.listInstances p.hostname p.domain (normOS p.datacenter)]) := by
        simp only [deleteServer, findServers, hL]
      rw [hd] at hn
      simp at hn
    | cons a tl =>
      have hd : deleteServer p prov =
          (.exitChanged true none,
           .listInstances p.hostname p.domain (normOS p.datacenter) ::
             (a :: tl).flatMap
               (fun s => [.waitForTransaction s.id 900, .cancelInstance s.id])) := by
        simp only [deleteServer, findServers, hL]
      rw [hd] at hn
      rcases List.mem_cons.mp hn with h | h
      · simp at h
      · rcases List.mem_flatMap.mp h with ⟨s, hs, hmem⟩
        simp at hmem
        exact ⟨s, hs, hmem.symm⟩

/-- An absent-state request for `to_delete.trash-it.com`. -/
def pAbsent : ServerParams :=
  { baseParams with
    hostname := "to_delete"
    domain := "trash-it.com"
    datacenter := none }

/-- A provider listing two matching instances, ids 5 and 6. -/
def provTwo : VsProvider :=
  { listInstances := fun _ _ _ => [⟨5, []⟩, ⟨6, []⟩]
    listAfterCreate := fun _ _ => []
    getInstance := fun n => ⟨n, []⟩
    waitForReady := fun _ _ => true }

/-- Witness for C8 at concrete inputs: two matches are both waited on and
canceled with `changed=true`; an empty listing exits unchanged with only the
read call. -/
theorem C8_cancel_all_matches_witness :
    (deleteServer pAbsent provTwo).1 = .exitChanged true none ∧
    VsCall.waitForTransaction 5 900 ∈ (deleteServer pAbsent provTwo).2 ∧
    VsCall.cancelInstance 5 ∈ (deleteServer pAbsent provTwo).2 ∧
    VsCall.cancelInstance 6 ∈ (deleteServer pAbsent provTwo).2 ∧
    deleteServer pAbsent provEmpty =
      (.exitChanged false (some "no servers were found with this specification"),
       [.listInstances "to_delete" "trash-it.com" none]) := by
  have h5 := (C8_cancel_all_matches pAbsent provTwo).2.1 ⟨5, []⟩ (by decide)
  have h6 := (C8_cancel_all_matches pAbsent provTwo).2.1 ⟨6, []⟩ (by decide)
  have h0 := (C8_cancel_all_matches pAbsent provEmpty).1 rfl
  exact ⟨h5.1, h5.2.1, h5.2.2, h6.2.2, h0⟩

/-! ## Claims about the fingerprint matcher -/

/-- C6, counterexample: `"!!!!"` is not valid base64 (it has no base64
alphabet characters at all), yet `_get_fingerprint` succeeds on it:
Python's lenient decoder discards the invalid characters and hashes the
empty byte string instead of failing. -/
theorem C6_counterexample :
    slGetFingerprint (some "ssh-rsa !!!! comment") =
      .ok "d4:1d:8c:d9:8f:00:b2:04:e9:80:09:98:ec:f8:42:7e" ∧
    "!!!!".toList.all (fun c => (b64Val c).isNone) = true := by
  exact ⟨by decide, by decide⟩

/-- C6, amended: a key text without a second whitespace-separated field
raises an unhandled `IndexError`; a second field whose base64 content has
invalid length raises an unhandled `binascii` error; and a second field made
only of non-alphabet characters is decoded leniently to the empty byte
string and yields its fingerprint instead of any error.  No failure is
converted to a structured error by the module. -/
theorem C6_malformed_key_behavior :
    (∀ s, (pySplitWs (pyStrip s)).length < 2 →
      slGetFingerprint (some s) = .error .indexError) ∧
    slGetFingerprint (some "ssh-rsa abc") = .error .binasciiError ∧
    slGetFingerprint (some "ssh-rsa !!!!") =
      .ok "d4:1d:8c:d9:8f:00:b2:04:e9:80:09:98:ec:f8:42:7e" := by
  refine ⟨?_, by decide, by decide⟩
  intro s h
  have hn : (pySplitWs (pyStrip s)).get? 1 = none :=
    List.get?_eq_none.mpr (by omega)
  simp only [slGetFingerprint, hn]

/-- Witness for C6's amended theorem at a concrete one-field input. -/
theorem C6_malformed_key_behavior_witness :
    slGetFingerprint (some "ssh-rsa") = .error .indexError :=
  C6_malformed_key_behavior.1 "ssh-rsa" (by decide)

/-- Splitting an all-whitespace suffix adds nothing. -/
theorem pySplitAux_allSpace (ws : List Char)
    (h : ∀ c ∈ ws, pyIsSpace c = true) :
    ∀ cur, pySplitAux ws cur = pySplitAux [] cur := by
  induction ws with
  | nil => intro cur; rfl
  | cons w rest ih =>
    intro cur
    have hw : pyIsSpace w = true := h w (List.mem_cons_self w rest)
    have ih2 := ih (fun c hc => h c (List.mem_cons_of_mem w hc))
    cases cur with
    | nil => simp only [pySplitAux, hw, if_true, ih2]
    | cons c cs =>
      simp only [pySplitAux, hw, if_true, ih2 []]

/-- An all-whitespace suffix does not change the split. -/
theorem pySplitAux_append_space (l : List Char) (ws : List Char)
    (h : ∀ c ∈ ws, pyIsSpace c = true) :
    ∀ cur, pySplitAux (l ++ ws) cur = pySplitAux l cur := by
  induction l with
  | nil =>
    intro cur
    simp only [List.nil_append]
    exact pySplitAux_allSpace ws h cur
  | cons c rest ih =>
    intro cur
    by_cases hc : pyIsSpace c = true
    · cases cur with
      | nil =>
        simp only [List.cons_append, pySplitAux, hc, if_true]
        exact ih []
      | cons a as =>
        simp only [List.cons_append, pySplitAux, hc, if_true]
        exact congrArg _ (ih [])
    · simp only [List.cons_append, pySplitAux, hc, if_false]
      exact ih (c :: cur)

/-- Leading whitespace does not change the split. -/
theorem pySplitAux_dropWhile (l : List Char) :
    pySplitAux (l.dropWhile pyIsSpace) [] = pySplitAux l [] := by
  induction l with
  | nil => rfl
  | cons c rest ih =>
    by_cases hc : pyIsSpace c = true
    · rw [List.dropWhile_cons_of_pos hc, ih]
      simp only [pySplitAux, hc, if_true]
    · rw [List.dropWhile_cons_of_neg hc]

/-- Python's `.strip()` is absorbed by the subsequent `.split()`. -/
theorem pySplitWs_strip (s : String) : pySplitWs (pyStrip s) = pySplitWs s := by
  show pySplitAux (((s.toList.dropWhile pyIsSpace).reverse.dropWhile
      pyIsSpace).reverse) [] = pySplitAux s.toList []
  rw [← pySplitAux_dropWhile s.toList]
  set l1 := s.toList.dropWhile pyIsSpace with hl1
  have hdec : l1 = (l1.reverse.dropWhile pyIsSpace).reverse ++
      (l1.reverse.takeWhile pyIsSpace).reverse := by
    have := List.takeWhile_append_dropWhile (p := pyIsSpace) (l := l1.reverse)
    calc l1 = l1.reverse.reverse := (List.reverse_reverse l1).symm
      _ = (l1.reverse.takeWhile pyIsSpace ++
            l1.reverse.dropWhile pyIsSpace).reverse := by rw [this]
      _ = (l1.reverse.dropWhile pyIsSpace).reverse ++
            (l1.reverse.takeWhile pyIsSpace).reverse := by
            rw [List.reverse_append]
  calc pySplitAux ((l1.reverse.dropWhile pyIsSpace).reverse) []
      = pySplitAux ((l1.reverse.dropWhile pyIsSpace).reverse ++
          (l1.reverse.takeWhile pyIsSpace).reverse) [] := by
        rw [pySplitAux_append_space _ _ ?h []]
        case h =>
          intro c hc
          exact List.mem_takeWhile_imp (List.mem_reverse.mp hc)
    _ = pySplitAux l1 [] := by rw [← hdec]

/-- Pairing the even- and odd-indexed characters of a concatenation of
two-character byte renderings recovers the per-byte renderings. -/
theorem zip_evens_odds_byteHex (l : List Nat) :
    ((evens (l.foldr (fun b acc => byteHex b ++ acc) [])).zip
      (odds (l.foldr (fun b acc => byteHex b ++ acc) []))).map
      (fun p => String.mk [p.1, p.2]) =
    l.map (fun b => String.mk (byteHex b)) := by
  induction l with
  | nil => rfl
  | cons b rest ih =>
    show ((evens (hexChar (b / 16) :: hexChar (b % 16) ::
        rest.foldr (fun b acc => byteHex b ++ acc) [])).zip
      (odds (hexChar (b / 16) :: hexChar (b % 16) ::
        rest.foldr (fun b acc => byteHex b ++ acc) []))).map
      (fun p => String.mk [p.1, p.2]) = _
    simp only [evens, odds, List.zip_cons_cons, List.map_cons, ih]
    rfl

/-- The source's interleaved-slices rendering of a hexdigest equals the
byte-wise colon-joined rendering. -/
theorem srcColon_md5Hexdigest (msg : List Nat) :
    srcColon (md5Hexdigest msg) =
    joinColon ((md5Bytes msg).map (fun b => String.mk (byteHex b))) :=
  congrArg joinColon (zip_evens_odds_byteHex (md5Bytes msg))

/-- Modelled from the spec (§4.1 Fingerprint Matcher), worded independently
of the source: take the second whitespace-separated field of the key text
(the base64 key-material field, between the leading algorithm name and any
trailing comment), decode it to raw bytes, hash with the 128-bit MD5
digest, and render the digest bytes as lowercase hex pairs joined by
colons. -/
def computeFingerprintSpec (publicKey : String) : Except PyError String :=
  match (pySplitWs publicKey).get? 1 with
  | none => .error .indexError
  | some field =>
    if field.toList.any (fun c => 128 ≤ c.toNat) then .error .unicodeEncodeError
    else
      match pyB64Decode field.toList with
      | .error e => .error e
      | .ok bytes =>
        .ok (joinColon ((md5Bytes bytes).map (fun b => String.mk (byteHex b))))

/-- C9: `_get_fingerprint` is the pure function the spec describes — it
equals the spec-worded algorithm (second whitespace field, base64 decode,
MD5, lowercase colon-grouped hex) on every input, and its result depends
only on the second whitespace-separated field, so key texts differing in
trailing whitespace or comment share a fingerprint. -/
theorem C9_fingerprint_algorithm :
    (∀ s, slGetFingerprint (some s) = computeFingerprintSpec s) ∧
    (∀ s t, (pySplitWs (pyStrip s)).get? 1 = (pySplitWs (pyStrip t)).get? 1 →
      slGetFingerprint (some s) = slGetFingerprint (some t)) := by
  constructor
  · intro s
    simp only [slGetFingerprint, computeFingerprintSpec, pySplitWs_strip]
    cases h : (pySplitWs s).get? 1 with
    | none => rfl
    | some field =>
      by_cases ha : field.toList.any (fun c => 128 ≤ c.toNat) = true
      · simp only [ha, if_true]
      · simp only [ha, if_false, Bool.false_eq_true]
        cases hd : pyB64Decode field.toList with
        | error e => rfl
        | ok bytes => exact congrArg Except.ok (srcColon_md5Hexdigest bytes)
  · intro s t h
    simp only [slGetFingerprint, h]

/-- Witness for C9 at concrete inputs: a bare key and the same key with a
trailing comment and newline have the same fingerprint (and its concrete
value matches an independent MD5 computation). -/
theorem C9_fingerprint_algorithm_witness :
    slGetFingerprint (some "ssh-rsa AAAA") =
      slGetFingerprint (some "ssh-rsa AAAA user@host\n") ∧
    slGetFingerprint (some "ssh-rsa AAAA") = .ok fpAAAA :=
  ⟨C9_fingerprint_algorithm.2 "ssh-rsa AAAA" "ssh-rsa AAAA user@host\n"
    (by decide), by decide⟩
